import Mathlib

/-!
Verification of the coral high-resolution delay core.

The repository's sole source file, `Sources/CWinPrivate/include/nt.h`,
declares one foreign function:

  NTSYSAPI NTSTATUS NTAPI NtDelayExecution(IN BOOLEAN Alertable,
                                           IN PLARGE_INTEGER DelayInterval);

The declaration is embedded directly below. Behaviour that the header only
declares (the native call's argument convention, the caller-facing wrapper,
the startup symbol probe) is absent from the sources and is modelled from
the specification; each such definition says so in its doc comment.
-/

namespace Coral

/-- Direction markers attached to C parameters in the header (IN). -/
inductive ParamDir where
  | dirIn
  | dirOut
  | dirInOut
  deriving DecidableEq, Repr

/-- C types occurring in the foreign declaration of `nt.h`:
BOOLEAN, NTSTATUS, and PLARGE_INTEGER (pointer to a signed 64-bit integer). -/
inductive CType where
  | boolean
  | ntstatus
  | pointerToInt64
  deriving DecidableEq, Repr

/-- One formal parameter of a C foreign-function declaration. -/
structure ForeignParam where
  dir : ParamDir
  type : CType
  name : String
  deriving DecidableEq, Repr

/-- A C foreign-function declaration: the bound symbol name, the parameter
list in order, and the return type. -/
structure ForeignDecl where
  symbol : String
  params : List ForeignParam
  ret : CType
  deriving DecidableEq, Repr

/-- The declaration of `NtDelayExecution` exactly as written in
`Sources/CWinPrivate/include/nt.h`, lines 8-9. -/
def ntDelayExecutionDecl : ForeignDecl :=
  { symbol := "NtDelayExecution"
    params := [ { dir := ParamDir.dirIn, type := CType.boolean, name := "Alertable" }
              , { dir := ParamDir.dirIn, type := CType.pointerToInt64, name := "DelayInterval" } ]
    ret := CType.ntstatus }

/-- Every foreign-function declaration made by the core's sources.
`nt.h` is the only source file and it declares exactly one function. -/
def coreForeignDecls : List ForeignDecl := [ntDelayExecutionDecl]

/-- A native status code (NTSTATUS), modelled as an integer value. -/
abbrev NTSTATUS := Int

/-- The native success status (STATUS_SUCCESS = 0). -/
def STATUS_SUCCESS : NTSTATUS := 0

/-- The value range of a signed 64-bit integer (LARGE_INTEGER). -/
def isI64 (x : Int) : Prop := -(2 ^ 63) ≤ x ∧ x < 2 ^ 63

instance (x : Int) : Decidable (isI64 x) := by unfold isI64; infer_instance

/-- The two suspension modes selected by the sign of the delay interval. -/
inductive DelayMode where
  | relative (hundredNs : Nat)
  | absoluteUntil (deadline : Int)
  deriving DecidableEq, Repr

/-- Modelled from the spec: the native call's sign convention for the 64-bit
DelayInterval value (the interpreting code lives in the OS kernel, outside
this repository's sources; the header only binds the symbol). A negative
value requests a relative delay of `natAbs` 100-nanosecond units; a
non-negative value requests suspension until that absolute timestamp in the
OS's 100-nanosecond epoch. -/
def interpretDelayInterval (v : Int) : DelayMode :=
  if v < 0 then DelayMode.relative v.natAbs else DelayMode.absoluteUntil v

/-- The requested duration of a delay mode in nanoseconds: a relative mode of
`k` hundred-nanosecond units lasts `k * 100` nanoseconds; an absolute mode
has no duration independent of the current clock. -/
def modeDurationNs : DelayMode → Option Nat
  | DelayMode.relative k => some (k * 100)
  | DelayMode.absoluteUntil _ => none

/-- Failures the caller-facing surface can report. -/
inductive DelayError where
  | invalidParameter
  | unsupported
  | nativeStatus (status : NTSTATUS)
  deriving DecidableEq, Repr

/-- Translation of a native status into the caller-facing result: success
becomes `ok`, any other status is carried verbatim as an opaque failure. -/
def statusToResult (s : NTSTATUS) : Except DelayError Unit :=
  if s = STATUS_SUCCESS then Except.ok () else Except.error (DelayError.nativeStatus s)

/-- Modelled from the spec: the process-wide state recording the result of
the one startup probe for the native symbol (no such state appears in the
sources, which hold only the header). `probeCount` counts how many symbol
probes have been performed. -/
structure CoreState where
  probed : Bool
  available : Bool
  probeCount : Nat
  deriving DecidableEq, Repr

/-- Modelled from the spec: process or module startup initialisation, which
probes once for the presence of the native symbol through the dynamic
`resolver` and records the outcome in process-wide state. -/
def initCore (resolver : String → Bool) : CoreState :=
  { probed := true, available := resolver ntDelayExecutionDecl.symbol, probeCount := 1 }

/-- The outcome of one caller-facing delay invocation: the translated
result, the process-wide state afterwards, and the arguments of every
native invocation performed, in order. -/
structure CallResult where
  result : Except DelayError Unit
  state : CoreState
  nativeCalls : List (Bool × Int)
  deriving Repr

/-- Modelled from the spec: one invocation of the caller-facing delay
function (absent from the sources, which hold only the header). It reads
the recorded availability without re-probing, converts the requested
nanosecond duration to the native 100-nanosecond representation encoded as
a non-positive (relative) interval, rejects values that overflow the signed
64-bit native range, invokes the native entry point at most once through
the sole binding, and translates the returned status. `os` abstracts the
kernel's response to a native invocation. -/
def delayCall (os : Bool → Int → NTSTATUS) (st : CoreState) (alertable : Bool) (ns : Nat) :
    CallResult :=
  if st.available then
    let units : Nat := ns / 100
    if 2 ^ 63 < units then
      { result := Except.error DelayError.invalidParameter, state := st, nativeCalls := [] }
    else
      let interval : Int := -(Int.ofNat units)
      { result := statusToResult (os alertable interval), state := st
        nativeCalls := [(alertable, interval)] }
  else
    { result := Except.error DelayError.unsupported, state := st, nativeCalls := [] }

/-- A sequence of caller-facing delay invocations threaded through the
process-wide state; returns the final state. -/
def runCalls (os : Bool → Int → NTSTATUS) (st : CoreState) : List (Bool × Nat) → CoreState
  | [] => st
  | r :: rs => runCalls os (delayCall os st r.1 r.2).state rs

/-- Modelled from the spec and the IN direction markers of the declaration:
the bound native call reads the 64-bit delay interval through the pointer
`p` from memory `mem` and returns with memory unchanged; `kernel` abstracts
how the OS turns the read value into a status. No inspection of the pointer
itself happens at this boundary. -/
def ntDelayExecutionMem (kernel : Bool → Int → NTSTATUS) (alertable : Bool) (p : Nat)
    (mem : Nat → Int) : NTSTATUS × (Nat → Int) :=
  (kernel alertable (mem p), mem)

/-- Memory after `n` repeated native invocations reusing the same pointer. -/
def repeatCallsMem (kernel : Bool → Int → NTSTATUS) (alertable : Bool) (p : Nat) :
    Nat → (Nat → Int) → (Nat → Int)
  | 0, mem => mem
  | n + 1, mem => repeatCallsMem kernel alertable p n (ntDelayExecutionMem kernel alertable p mem).2

/-! Helper lemmas shared by the claim theorems. -/

theorem isI64_neg_ofNat (u : Nat) : isI64 (-(Int.ofNat u)) ↔ u ≤ 2 ^ 63 := by
  have h1 : ((2 : Int) ^ 63) = 9223372036854775808 := by norm_num
  have h2 : ((2 : Nat) ^ 63) = 9223372036854775808 := by norm_num
  simp only [isI64, h1, h2, Int.ofNat_eq_coe]
  omega

theorem statusToResult_ne (s : NTSTATUS) (h : s ≠ STATUS_SUCCESS) :
    statusToResult s = Except.error (DelayError.nativeStatus s) := by
  simp [statusToResult, h]

theorem delayCall_state (os : Bool → Int → NTSTATUS) (st : CoreState) (a : Bool) (ns : Nat) :
    (delayCall os st a ns).state = st := by
  simp only [delayCall]
  split
  · split <;> rfl
  · rfl

theorem runCalls_state (os : Bool → Int → NTSTATUS) (st : CoreState)
    (reqs : List (Bool × Nat)) : runCalls os st reqs = st := by
  induction reqs generalizing st with
  | nil => rfl
  | cons r rs ih => simp [runCalls, delayCall_state, ih]

theorem repeatCallsMem_eq (kernel : Bool → Int → NTSTATUS) (a : Bool) (p : Nat) (n : Nat)
    (mem : Nat → Int) : repeatCallsMem kernel a p n mem = mem := by
  induction n generalizing mem with
  | zero => rfl
  | succ n ih => simpa [repeatCallsMem, ntDelayExecutionMem] using ih mem

/-! The claim theorems. -/

/-- C1: the core's sole external boundary is one foreign-function
declaration, binding by symbol name to `NtDelayExecution`, whose signature
takes an alertable boolean and a pointer to a signed 64-bit delay interval
and returns a native status code; and every native invocation a delay call
performs passes an interval within the signed 64-bit range, going through
exactly this signature. -/
theorem C1_sole_foreign_binding :
    coreForeignDecls = [ntDelayExecutionDecl] ∧
    ntDelayExecutionDecl.symbol = "NtDelayExecution" ∧
    ntDelayExecutionDecl.params.map ForeignParam.type = [CType.boolean, CType.pointerToInt64] ∧
    ntDelayExecutionDecl.ret = CType.ntstatus ∧
    ∀ os st a ns q, q ∈ (delayCall os st a ns).nativeCalls → isI64 q.2 := by
  refine ⟨rfl, rfl, rfl, rfl, ?_⟩
  intro os st a ns q hq
  simp only [delayCall] at hq
  split at hq
  · split at hq
    · exact absurd hq (List.not_mem_nil q)
    · rename_i hov
      simp only [List.mem_singleton] at hq
      subst hq
      exact (isI64_neg_ofNat (ns / 100)).mpr (Nat.le_of_not_lt hov)
  · exact absurd hq (List.not_mem_nil q)

/-- Witness for C1 at a concrete invocation: the interval `-3` passed to
the native call for a 300 ns request is within the signed 64-bit range. -/
theorem C1_sole_foreign_binding_witness : isI64 (((true, (-3 : Int)) : Bool × Int).2) :=
  C1_sole_foreign_binding.2.2.2.2 (fun _ _ => 0)
    { probed := true, available := true, probeCount := 1 } true 300 (true, -3) (by decide)

/-- C2: the 64-bit delay interval is interpreted by sign: a negative value
requests a relative delay of `natAbs` 100-nanosecond units, i.e. a duration
of `natAbs * 100` nanoseconds, while a non-negative value requests
suspension until that absolute timestamp in the OS 100-nanosecond epoch. -/
theorem C2_sign_convention (v : Int) :
    (v < 0 → interpretDelayInterval v = DelayMode.relative v.natAbs ∧
      modeDurationNs (interpretDelayInterval v) = some (v.natAbs * 100)) ∧
    (0 ≤ v → interpretDelayInterval v = DelayMode.absoluteUntil v) := by
  constructor
  · intro hv
    simp [interpretDelayInterval, hv, modeDurationNs]
  · intro hv
    simp [interpretDelayInterval, not_lt.mpr hv]

/-- Witness for C2 at concrete inputs: `-7` selects a relative delay of 7
hundred-nanosecond units (700 ns), and `5` selects the absolute mode. -/
theorem C2_sign_convention_witness :
    interpretDelayInterval (-7) = DelayMode.relative 7 ∧
    modeDurationNs (interpretDelayInterval (-7)) = some 700 ∧
    interpretDelayInterval 5 = DelayMode.absoluteUntil 5 :=
  ⟨((C2_sign_convention (-7)).1 (by decide)).1,
   ((C2_sign_convention (-7)).1 (by decide)).2,
   (C2_sign_convention 5).2 (by decide)⟩

/-- C3: the caller-facing function takes a duration in nanoseconds and,
when the primitive is available and the value in range, performs the unit
conversion to the native 100-nanosecond representation (encoded relative,
as `-(ns / 100)`), invokes the native entry point with exactly that
interval, and returns the error-translated status — so collaborators see
only the nanosecond signature, never the native symbol. -/
theorem C3_caller_facing (os : Bool → Int → NTSTATUS) (st : CoreState) (a : Bool) (ns : Nat)
    (hav : st.available = true) (hr : ns / 100 ≤ 2 ^ 63) :
    (delayCall os st a ns).result = statusToResult (os a (-(Int.ofNat (ns / 100)))) ∧
    (delayCall os st a ns).nativeCalls = [(a, -(Int.ofNat (ns / 100)))] := by
  simp only [delayCall]
  rw [if_pos hav, if_neg (Nat.not_lt.mpr hr)]
  exact ⟨rfl, rfl⟩

/-- Witness for C3 at a concrete invocation: a 250 ns request with an
always-succeeding kernel yields success through the converted interval. -/
theorem C3_caller_facing_witness :
    (delayCall (fun _ _ => 0) { probed := true, available := true, probeCount := 1 }
      true 250).result = Except.ok () ∧
    (delayCall (fun _ _ => 0) { probed := true, available := true, probeCount := 1 }
      true 250).nativeCalls = [(true, -2)] := by
  have h := C3_caller_facing (fun _ _ => 0)
    { probed := true, available := true, probeCount := 1 } true 250 rfl (by decide)
  exact ⟨h.1.trans rfl, h.2.trans rfl⟩

/-- C4: the availability of the native entry point is detected exactly once
at startup by probing for the symbol's presence, the result is recorded in
process-wide state, every later call reads that state (an unavailable
primitive reports the unsupported failure without any native invocation),
and no sequence of calls ever performs another probe. -/
theorem C4_probe_once (resolver : String → Bool) :
    (initCore resolver).probeCount = 1 ∧
    (initCore resolver).available = resolver ntDelayExecutionDecl.symbol ∧
    (∀ os reqs, (runCalls os (initCore resolver) reqs).probeCount = 1) ∧
    (∀ os a ns, (initCore resolver).available = false →
      (delayCall os (initCore resolver) a ns).result = Except.error DelayError.unsupported ∧
      (delayCall os (initCore resolver) a ns).nativeCalls = []) := by
  refine ⟨rfl, rfl, ?_, ?_⟩
  · intro os reqs
    rw [runCalls_state]
    rfl
  · intro os a ns hna
    simp only [delayCall]
    rw [if_neg (by simp [hna])]
    exact ⟨rfl, rfl⟩

/-- Witness for C4 with a resolver that fails to find the symbol: the probe
count stays 1 across a call sequence and each call reports unsupported. -/
theorem C4_probe_once_witness :
    (runCalls (fun _ _ => 0) (initCore (fun _ => false)) [(true, 100), (false, 0)]).probeCount
      = 1 ∧
    (delayCall (fun _ _ => 0) (initCore (fun _ => false)) true 100).result
      = Except.error DelayError.unsupported :=
  ⟨(C4_probe_once (fun _ => false)).2.2.1 (fun _ _ => 0) [(true, 100), (false, 0)],
   ((C4_probe_once (fun _ => false)).2.2.2 (fun _ _ => 0) true 100 rfl).1⟩

/-- C5: a duration whose converted interval violates the signed 64-bit
native range yields the invalid-parameter precondition failure; no native
invocation happens at all, so the value is never silently clamped and the
call is neither a silent no-op success nor a crash. -/
theorem C5_overflow_rejected (os : Bool → Int → NTSTATUS) (st : CoreState) (a : Bool) (ns : Nat)
    (hav : st.available = true) (hov : ¬ isI64 (-(Int.ofNat (ns / 100)))) :
    (delayCall os st a ns).result = Except.error DelayError.invalidParameter ∧
    (delayCall os st a ns).nativeCalls = [] := by
  have hgt : 2 ^ 63 < ns / 100 := by
    by_contra hle
    exact hov ((isI64_neg_ofNat (ns / 100)).mpr (Nat.le_of_not_lt hle))
  simp only [delayCall]
  rw [if_pos hav, if_pos hgt]
  exact ⟨rfl, rfl⟩

/-- Witness for C5 at a concrete out-of-range duration: 100 * (2^63 + 1)
nanoseconds converts to an interval below the signed 64-bit minimum and is
rejected with invalid-parameter, with no native invocation. -/
theorem C5_overflow_rejected_witness :
    (delayCall (fun _ _ => 0) { probed := true, available := true, probeCount := 1 }
      true (100 * (2 ^ 63 + 1))).result = Except.error DelayError.invalidParameter ∧
    (delayCall (fun _ _ => 0) { probed := true, available := true, probeCount := 1 }
      true (100 * (2 ^ 63 + 1))).nativeCalls = [] :=
  C5_overflow_rejected (fun _ _ => 0) { probed := true, available := true, probeCount := 1 }
    true (100 * (2 ^ 63 + 1)) rfl (by decide)

/-- C6: when the native call returns any non-success status, the failure is
propagated verbatim to the caller as an opaque error carrying that native
status value, and the native entry point was invoked exactly once — no
retry, no interpretation, no swallowed error. -/
theorem C6_verbatim_propagation (os : Bool → Int → NTSTATUS) (st : CoreState) (a : Bool)
    (ns : Nat) (s : NTSTATUS) (hav : st.available = true) (hr : ns / 100 ≤ 2 ^ 63)
    (hs : os a (-(Int.ofNat (ns / 100))) = s) (hne : s ≠ STATUS_SUCCESS) :
    (delayCall os st a ns).result = Except.error (DelayError.nativeStatus s) ∧
    (delayCall os st a ns).nativeCalls.length = 1 := by
  simp only [delayCall]
  rw [if_pos hav, if_neg (Nat.not_lt.mpr hr)]
  subst hs
  exact ⟨statusToResult_ne _ hne, rfl⟩

/-- Witness for C6 at a concrete invocation: a kernel that returns status 5
produces exactly one native call and the opaque failure carrying 5. -/
theorem C6_verbatim_propagation_witness :
    (delayCall (fun _ _ => 5) { probed := true, available := true, probeCount := 1 }
      true 0).result = Except.error (DelayError.nativeStatus 5) ∧
    (delayCall (fun _ _ => 5) { probed := true, available := true, probeCount := 1 }
      true 0).nativeCalls.length = 1 :=
  C6_verbatim_propagation (fun _ _ => 5) { probed := true, available := true, probeCount := 1 }
    true 0 5 rfl (by decide) rfl (by decide)

/-- C9: the delay-interval parameter is declared input-only (IN), and under
that contract the 64-bit value the pointer refers to — and all of memory —
is unchanged when the call returns, across any number of repeated
invocations reusing the same pointer and duration value. -/
theorem C9_interval_input_only :
    ntDelayExecutionDecl.params.map ForeignParam.dir = [ParamDir.dirIn, ParamDir.dirIn] ∧
    (∀ kernel a p mem, (ntDelayExecutionMem kernel a p mem).2 = mem) ∧
    (∀ kernel a p mem n, repeatCallsMem kernel a p n mem = mem ∧
      (ntDelayExecutionMem kernel a p (repeatCallsMem kernel a p n mem)).1
        = kernel a (mem p)) := by
  refine ⟨rfl, fun kernel a p mem => rfl, fun kernel a p mem n => ?_⟩
  constructor
  · exact repeatCallsMem_eq kernel a p n mem
  · rw [repeatCallsMem_eq]
    rfl

/-- C10: the binding performs no validation of the delay-interval pointer:
the outcome depends only on the 64-bit value read through the pointer,
never on the pointer itself, and even the null pointer (address 0) is
passed straight through to the kernel with no check at this boundary. -/
theorem C10_no_pointer_validation (kernel : Bool → Int → NTSTATUS) (a : Bool)
    (mem : Nat → Int) (p q : Nat) (h : mem p = mem q) :
    ntDelayExecutionMem kernel a p mem = ntDelayExecutionMem kernel a q mem ∧
    ntDelayExecutionMem kernel a 0 mem = (kernel a (mem 0), mem) := by
  constructor
  · unfold ntDelayExecutionMem
    rw [h]
  · rfl

/-- Witness for C10 at concrete pointers: with uniform memory the call at
address 1 equals the call at address 2, and the claim applies at null. -/
theorem C10_no_pointer_validation_witness :
    ntDelayExecutionMem (fun _ _ => 0) true 1 (fun _ => 42)
      = ntDelayExecutionMem (fun _ _ => 0) true 2 (fun _ => 42) :=
  (C10_no_pointer_validation (fun _ _ => 0) true (fun _ => 42) 1 2 rfl).1

end Coral
